import Mathlib

/-!
A shallow embedding of the TLS scanning probe in
`scan/crypto/tls/cfsslscan_handshake.go` (functions `SayHello`, `sayHello`,
`exchangeKeys`), together with theorems about its behaviour.

The transport and record layer are external to that file, so the connection
is modelled as an oracle: the outcome of the single record write and the
stream of outcomes that successive `readHandshake` calls deliver.  Go byte
slices become `List Nat` whose elements are below 256 (hypotheses state this
where an individual byte is read); `uint16` values become `Nat` (they are
only copied and compared, never wrapped).  Go named results start at their
zero values and are returned as they stand at each `return`, which the
`SayHelloResult` structure with zero defaults reproduces exactly.
-/

namespace CfsslScan

/-- TLS 1.2 version constant 0x0303, the historical ClientHello version ceiling. -/
def VersionTLS12 : Nat := 0x0303

/-- Handshake message type byte of ServerKeyExchange in crypto/tls. -/
def typeServerKeyExchange : Nat := 12

/-- The compression method "none" in crypto/tls. -/
def compressionNone : Nat := 0

/-- The uncompressed point format identifier in crypto/tls. -/
def pointFormatUncompressed : Nat := 0

/-- A signature-and-hash pair as passed to `SayHello` (`newSigAls`). -/
structure SignatureAndHash where
  h : Nat
  s : Nat
deriving DecidableEq, Repr

/-- Modelled from the spec: the Capability Provider supplies candidate
signature/hash pairs; their conversion to a wire signature scheme
(`SignatureAndHash.internal` in the repository, outside this file) packs the
hash byte above the signature byte. -/
def SignatureAndHash.internal (sh : SignatureAndHash) : Nat :=
  sh.h <<< 8 ||| sh.s

/-- The typed handshake messages `c.readHandshake()` can deliver.  Only the
fields that `SayHello` consumes are modelled: the negotiated version, cipher
suite and OCSP-stapling flag of a ServerHello, the certificate list of a
Certificate, the raw bytes and key-exchange bytes of a ServerKeyExchange.
`other` stands for any other concrete handshake message, carrying its Go
dynamic type name. -/
inductive HSMsg where
  | serverHello (vers cipherSuite : Nat) (ocspStapling : Bool)
  | certificate (certificates : List (List Nat))
  | certificateStatus (response : List Nat)
  | serverKeyExchange (raw key : List Nat)
  | other (typeName : String)
deriving DecidableEq, Repr

/-- The Go dynamic type name of a message, as `%T` formats it. -/
def msgTypeName : HSMsg → String
  | .serverHello _ _ _ => "*tls.serverHelloMsg"
  | .certificate _ => "*tls.certificateMsg"
  | .certificateStatus _ => "*tls.certificateStatusMsg"
  | .serverKeyExchange _ _ => "*tls.serverKeyExchangeMsg"
  | .other typeName => typeName

/-- Errors produced and propagated by the probe: `unexpectedMessage` carries
the two `%T` identities that `unexpectedMessageError(wanted, got)` formats;
`transport` is any error the transport layer returns from a write or read. -/
inductive TLSError where
  | unexpectedMessage (wanted got : String)
  | transport (explanation : String)
deriving DecidableEq, Repr

/-- `unexpectedMessageError(wanted, got)`: the error text is built from the
dynamic type names of the two arguments. -/
def unexpectedMessageError (wanted got : String) : TLSError :=
  .unexpectedMessage wanted got

/-- The connection: the results of the config getters the source calls
(`c.config.supportedVersions()`, `c.config.ServerName`,
`c.config.curvePreferences()`, `c.config.cipherSuites()`) plus the transport
oracle.  `writeErr` is the outcome the transport reports for the single
record write; the source discards that outcome, so no definition below reads
this field.  `reads` scripts the successive results of `c.readHandshake()`. -/
structure Conn where
  supportedVersions : List Nat
  serverName : String
  curvePreferences : List Nat
  cipherSuites : List Nat
  writeErr : Option String
  reads : List (Except TLSError HSMsg)

/-- The `clientHelloMsg` fields that `SayHello` sets (source lines 26-37). -/
structure ClientHelloMsg where
  vers : Nat
  compressionMethods : List Nat
  random : List Nat
  ocspStapling : Bool
  serverName : String
  supportedCurves : List Nat
  supportedPoints : List Nat
  secureRenegotiationSupported : Bool
  cipherSuites : List Nat
  supportedSignatureAlgorithms : List Nat
deriving DecidableEq, Repr

/-- The view of `serverHelloMsg` that `SayHello` consumes. -/
structure ServerHelloMsg where
  vers : Nat
  cipherSuite : Nat
  ocspStapling : Bool
deriving DecidableEq, Repr

/-- Observable I/O effects of a probe: the hello records written (before
marshalling, which is external and injective) and the number of
`readHandshake` calls performed. -/
structure Effects where
  written : List ClientHelloMsg := []
  readsDone : Nat := 0
deriving DecidableEq, Repr

/-- `c.readHandshake()`: the transport delivers the next scripted outcome;
reading past the script is a transport failure (closed connection). -/
def readHandshake (c : Conn) (eff : Effects) : Except TLSError HSMsg × Effects :=
  (c.reads.getD eff.readsDone (.error (.transport "EOF")),
   { eff with readsDone := eff.readsDone + 1 })

/-- Modelled from the spec: an entry of the cipher-suite capability table
(`CFCipherSuites`, defined outside this file); the probe reads only its
`EllipticCurve` field.  Its zero value has `EllipticCurve` false. -/
structure CipherSuite where
  EllipticCurve : Bool := false
deriving DecidableEq, Repr

/-- Go map indexing `CFCipherSuites[id]`: the entry for `id`, or the zero
value of the entry type when `id` is absent from the table. -/
def mapIndex (table : List (Nat × CipherSuite)) (k : Nat) : CipherSuite :=
  ((table.find? (fun e => e.1 == k)).map (fun e => e.2)).getD {}

/-- The named results of `SayHello`, all starting at their Go zero values;
each `return` in the source returns them as they stand. -/
structure SayHelloResult where
  cipherID : Nat := 0
  curveType : Nat := 0
  curveID : Nat := 0
  version : Nat := 0
  certs : List (List Nat) := []
  err : Option TLSError := none
deriving DecidableEq, Repr

/-- `sayHello` (source lines 96-108): writes the hello record — the source
discards `writeRecord`'s result — then reads one message, which must be a
`serverHelloMsg`. -/
def sayHello (c : Conn) (hello : ClientHelloMsg) (eff : Effects) :
    Except TLSError ServerHelloMsg × Effects :=
  let eff1 := { eff with written := eff.written ++ [hello] }
  match readHandshake c eff1 with
  | (.error e, eff2) => (.error e, eff2)
  | (.ok msg, eff2) =>
    match msg with
    | .serverHello vers cipherSuite ocspStapling =>
      (.ok ⟨vers, cipherSuite, ocspStapling⟩, eff2)
    | m => (.error (unexpectedMessageError "*tls.serverHelloMsg" (msgTypeName m)), eff2)

/-- `exchangeKeys` (source lines 112-122): reads one message, which must be a
`serverKeyExchangeMsg`; returns its raw bytes and key bytes. -/
def exchangeKeys (c : Conn) (eff : Effects) :
    Except TLSError (List Nat × List Nat) × Effects :=
  match readHandshake c eff with
  | (.error e, eff2) => (.error e, eff2)
  | (.ok msg, eff2) =>
    match msg with
    | .serverKeyExchange raw key => (.ok (raw, key), eff2)
    | m => (.error (unexpectedMessageError "*tls.serverKeyExchangeMsg" (msgTypeName m)), eff2)

/-- Source lines 70-91: the elliptic-curve branch and the final assignments.
`msg` is the last message bound to the source's `msg` variable (the
Certificate, or the CertificateStatus when one was read); the source passes
it, stale, to `unexpectedMessageError` for the two structural checks on the
ServerKeyExchange. -/
def ecBranch (c : Conn) (CFCipherSuites : List (Nat × CipherSuite))
    (serverHello : ServerHelloMsg) (certs : List (List Nat)) (msg : HSMsg)
    (eff : Effects) : SayHelloResult × Effects :=
  if (mapIndex CFCipherSuites serverHello.cipherSuite).EllipticCurve then
    match exchangeKeys c eff with
    | (.error e, eff2) => ({ certs := certs, err := some e }, eff2)
    | (.ok (raw, key), eff2) =>
      if raw.headD 0 != typeServerKeyExchange then
        ({ certs := certs,
           err := some (unexpectedMessageError "*tls.serverKeyExchangeMsg" (msgTypeName msg)) },
         eff2)
      else if key.length < 4 then
        ({ certs := certs,
           err := some (unexpectedMessageError "*tls.serverKeyExchangeMsg" (msgTypeName msg)) },
         eff2)
      else
        let curveType := key.headD 0
        let curveID := if curveType == 3 then (key.getD 1 0) <<< 8 ||| (key.getD 2 0) else 0
        ({ cipherID := serverHello.cipherSuite, curveType := curveType,
           curveID := curveID, version := serverHello.vers, certs := certs,
           err := none }, eff2)
  else
    ({ cipherID := serverHello.cipherSuite, version := serverHello.vers,
       certs := certs, err := none }, eff)

/-- Source lines 58-69: the optional CertificateStatus step.  When the
ServerHello acknowledged OCSP stapling, one more message is read and must be
a `certificateStatusMsg` (its content is not examined); it then becomes the
value of the source's `msg` variable. -/
def afterCerts (c : Conn) (CFCipherSuites : List (Nat × CipherSuite))
    (serverHello : ServerHelloMsg) (certs : List (List Nat)) (msg : HSMsg)
    (eff : Effects) : SayHelloResult × Effects :=
  if serverHello.ocspStapling then
    match readHandshake c eff with
    | (.error e, eff2) => ({ certs := certs, err := some e }, eff2)
    | (.ok msg2, eff2) =>
      match msg2 with
      | .certificateStatus response =>
        ecBranch c CFCipherSuites serverHello certs (.certificateStatus response) eff2
      | m =>
        ({ certs := certs,
           err := some (unexpectedMessageError "*tls.certificateStatusMsg" (msgTypeName m)) },
         eff2)
  else
    ecBranch c CFCipherSuites serverHello certs msg eff

/-- Source lines 5-37: the ClientHello that `SayHello` builds.  The hello
version is the most-preferred candidate, capped at `VersionTLS12` (lines
18-25); `make([]byte, 32)` zero-fills, so the random is 32 zero bytes. -/
def mkClientHello (c : Conn) (newSigAls : List SignatureAndHash) : ClientHelloMsg :=
  let supportedSignatureAlgorithms := newSigAls.map SignatureAndHash.internal
  let clientHelloVersion0 := c.supportedVersions.headD 0
  let clientHelloVersion :=
    if clientHelloVersion0 > VersionTLS12 then VersionTLS12 else clientHelloVersion0
  { vers := clientHelloVersion
    compressionMethods := [compressionNone]
    random := List.replicate 32 0
    ocspStapling := true
    serverName := c.serverName
    supportedCurves := c.curvePreferences
    supportedPoints := [pointFormatUncompressed]
    secureRenegotiationSupported := true
    cipherSuites := c.cipherSuites
    supportedSignatureAlgorithms := supportedSignatureAlgorithms }

/-- `SayHello` (source lines 5-93).  Builds the capped ClientHello, sends it
via `sayHello`, then reads the Certificate message (which must carry at least
one certificate), the optional CertificateStatus and, for elliptic-curve
suites, the ServerKeyExchange.  Returns the named results together with the
observable effects. -/
def SayHello (c : Conn) (CFCipherSuites : List (Nat × CipherSuite))
    (newSigAls : List SignatureAndHash) : SayHelloResult × Effects :=
  if c.supportedVersions.length == 0 then
    ({ err := some (unexpectedMessageError "[]uint16" "string") }, {})
  else
    let hello := mkClientHello c newSigAls
    match sayHello c hello {} with
    | (.error e, eff) => ({ err := some e }, eff)
    | (.ok serverHello, eff) =>
      match readHandshake c eff with
      | (.error e, eff2) => ({ err := some e }, eff2)
      | (.ok msg, eff2) =>
        match msg with
        | .certificate certificates =>
          if certificates.length == 0 then
            ({ err := some (unexpectedMessageError "*tls.certificateMsg"
                 (msgTypeName (.certificate certificates))) }, eff2)
          else
            afterCerts c CFCipherSuites serverHello certificates
              (.certificate certificates) eff2
        | m =>
          ({ err := some (unexpectedMessageError "*tls.certificateMsg" (msgTypeName m)) },
           eff2)

/-! ## General lemmas about the embedding -/

/-- Packing a shifted high byte with a low byte below 256 is positional
arithmetic: the or is an addition. -/
theorem shiftLeft8_lor_eq (a b : Nat) (hb : b < 256) :
    a <<< 8 ||| b = 256 * a + b := by
  have h := Nat.mul_add_lt_is_or (i := 8) (b := b) (by simpa using hb) a
  rw [Nat.shiftLeft_eq, Nat.mul_comm, ← h]

theorem sayHello_eff (c : Conn) (hello : ClientHelloMsg) (eff : Effects) :
    (sayHello c hello eff).2.written = eff.written ++ [hello] ∧
    (sayHello c hello eff).2.readsDone = eff.readsDone + 1 := by
  obtain ⟨w, n⟩ := eff
  unfold sayHello readHandshake
  rcases hr : c.reads[n]? with _ | r
  · simp [List.getD, hr]
  · rcases r with e | m
    · simp [List.getD, hr]
    · cases m <;> simp [List.getD, hr]

theorem exchangeKeys_eff (c : Conn) (eff : Effects) :
    (exchangeKeys c eff).2.written = eff.written ∧
    (exchangeKeys c eff).2.readsDone = eff.readsDone + 1 := by
  obtain ⟨w, n⟩ := eff
  unfold exchangeKeys readHandshake
  rcases hr : c.reads[n]? with _ | r
  · simp [List.getD, hr]
  · rcases r with e | m
    · simp [List.getD, hr]
    · cases m <;> simp [List.getD, hr]

theorem ecBranch_written (c : Conn) (tbl : List (Nat × CipherSuite))
    (sh : ServerHelloMsg) (certs : List (List Nat)) (msg : HSMsg) (eff : Effects) :
    (ecBranch c tbl sh certs msg eff).2.written = eff.written := by
  unfold ecBranch
  split
  · rcases hx : exchangeKeys c eff with ⟨r, eff2⟩
    have hwr : eff2.written = eff.written := by
      have := (exchangeKeys_eff c eff).1
      simpa [hx] using this
    rcases r with e | kp
    · simp [hx, hwr]
    · obtain ⟨raw, key⟩ := kp
      simp only [hx]
      split
      · simp [hwr]
      · split <;> simp [hwr]
  · rfl

theorem afterCerts_written (c : Conn) (tbl : List (Nat × CipherSuite))
    (sh : ServerHelloMsg) (certs : List (List Nat)) (msg : HSMsg) (eff : Effects) :
    (afterCerts c tbl sh certs msg eff).2.written = eff.written := by
  unfold afterCerts
  split
  · obtain ⟨w, n⟩ := eff
    unfold readHandshake
    rcases hr : c.reads[n]? with _ | r
    · simp [List.getD, hr]
    · rcases r with e | m
      · simp [List.getD, hr]
      · cases m <;> simp [List.getD, hr, ecBranch_written]
  · exact ecBranch_written ..

theorem SayHello_written (c : Conn) (tbl : List (Nat × CipherSuite))
    (a : List SignatureAndHash) (h : c.supportedVersions ≠ []) :
    (SayHello c tbl a).2.written = [mkClientHello c a] := by
  unfold SayHello
  have hlen : (c.supportedVersions.length == 0) = false := by
    simp only [beq_eq_false_iff_ne, ne_eq, List.length_eq_zero]
    exact h
  rw [if_neg (by simp [hlen])]
  rcases hs : sayHello c (mkClientHello c a) {} with ⟨e | sh, eff⟩
  · have := (sayHello_eff c (mkClientHello c a) {}).1
    simp [hs] at this
    simp [hs, this]
  · have hw : eff.written = [mkClientHello c a] := by
      have := (sayHello_eff c (mkClientHello c a) {}).1
      simpa [hs] using this
    rcases hr : c.reads[eff.readsDone]? with _ | r
    · simp [hs, readHandshake, List.getD, hr, hw]
    · rcases r with e | m
      · simp [hs, readHandshake, List.getD, hr, hw]
      · cases m with
        | certificate certificates =>
          by_cases hc : certificates.length = 0
          · simp [hs, readHandshake, List.getD, hr, hw, hc]
          · simp [hs, readHandshake, List.getD, hr, hw, hc, afterCerts_written]
        | serverHello v cs o => simp [hs, readHandshake, List.getD, hr, hw]
        | certificateStatus resp => simp [hs, readHandshake, List.getD, hr, hw]
        | serverKeyExchange raw key => simp [hs, readHandshake, List.getD, hr, hw]
        | other nm => simp [hs, readHandshake, List.getD, hr, hw]

theorem ecBranch_zero (c : Conn) (tbl : List (Nat × CipherSuite))
    (sh : ServerHelloMsg) (certs : List (List Nat)) (msg : HSMsg) (eff : Effects) :
    ((ecBranch c tbl sh certs msg eff).1.err).isSome →
      (ecBranch c tbl sh certs msg eff).1.cipherID = 0 ∧
      (ecBranch c tbl sh certs msg eff).1.curveType = 0 ∧
      (ecBranch c tbl sh certs msg eff).1.curveID = 0 ∧
      (ecBranch c tbl sh certs msg eff).1.version = 0 := by
  unfold ecBranch
  split
  · rcases hx : exchangeKeys c eff with ⟨r, eff2⟩
    rcases r with e | kp
    · simp [hx]
    · obtain ⟨raw, key⟩ := kp
      simp only [hx]
      split
      · simp
      · split
        · simp
        · simp
  · simp

theorem afterCerts_zero (c : Conn) (tbl : List (Nat × CipherSuite))
    (sh : ServerHelloMsg) (certs : List (List Nat)) (msg : HSMsg) (eff : Effects) :
    ((afterCerts c tbl sh certs msg eff).1.err).isSome →
      (afterCerts c tbl sh certs msg eff).1.cipherID = 0 ∧
      (afterCerts c tbl sh certs msg eff).1.curveType = 0 ∧
      (afterCerts c tbl sh certs msg eff).1.curveID = 0 ∧
      (afterCerts c tbl sh certs msg eff).1.version = 0 := by
  unfold afterCerts
  split
  · obtain ⟨w, n⟩ := eff
    unfold readHandshake
    rcases hr : c.reads[n]? with _ | r
    · simp [List.getD, hr]
    · rcases r with e | m
      · simp [List.getD, hr]
      · cases m with
        | certificateStatus resp =>
          simp only [List.getD_eq_getElem?_getD, hr, Option.getD_some]
          exact ecBranch_zero _ _ _ _ _ _
        | serverHello v cs o => simp [List.getD, hr]
        | certificate cs => simp [List.getD, hr]
        | serverKeyExchange raw key => simp [List.getD, hr]
        | other nm => simp [List.getD, hr]
  · exact ecBranch_zero _ _ _ _ _ _

theorem length_beq_zero_false {α : Type} {l : List α} (h : l ≠ []) :
    (l.length == 0) = false := by
  simp only [beq_eq_false_iff_ne, ne_eq, List.length_eq_zero]
  exact h

/-- A probe whose negotiated suite is not elliptic-curve per the table:
it succeeds after two reads (three when OCSP stapling was acknowledged),
never enters the ServerKeyExchange step, and reports the ServerHello's
cipher suite and version with zero curve fields. -/
theorem SayHello_nonEC_success (c : Conn) (tbl : List (Nat × CipherSuite))
    (a : List SignatureAndHash) (v cs : Nat) (ocsp : Bool) (certs : List (List Nat))
    (resp : List Nat) (rest : List (Except TLSError HSMsg))
    (hv : c.supportedVersions ≠ []) (hcerts : certs ≠ [])
    (hec : (mapIndex tbl cs).EllipticCurve = false)
    (hreads : c.reads = .ok (.serverHello v cs ocsp) :: .ok (.certificate certs)
        :: ((cond ocsp [Except.ok (HSMsg.certificateStatus resp)] []) ++ rest)) :
    (SayHello c tbl a).1 =
      { cipherID := cs, curveType := 0, curveID := 0, version := v,
        certs := certs, err := none } ∧
    (SayHello c tbl a).2.readsDone = (if ocsp then 3 else 2) := by
  have hlen := length_beq_zero_false hv
  obtain ⟨c0, crest, rfl⟩ := List.exists_cons_of_ne_nil hcerts
  cases ocsp
  · simp [SayHello, hlen, sayHello, readHandshake, afterCerts, ecBranch, hreads, hec]
  · simp [SayHello, hlen, sayHello, readHandshake, afterCerts, ecBranch, hreads, hec]

/-! ## Claims -/

/-- Counterexample input for C1: the ServerHello acknowledges OCSP stapling
but the third message is a Finished instead of a CertificateStatus, so the
probe errors after the certificate chain was already stored. -/
def c1cex : Conn :=
  { supportedVersions := [771], serverName := "", curvePreferences := [],
    cipherSuites := [], writeErr := none,
    reads := [.ok (.serverHello 771 49195 true), .ok (.certificate [[1, 2]]),
              .ok (.other "*tls.finishedMsg")] }

/-- C1 (counterexample): SayHello can return an error together with a
non-empty `certs` field — the source stores `certMsg.certificates` before the
CertificateStatus and ServerKeyExchange steps, so those steps' failures
accompany a partially populated result. -/
theorem sayHello_error_with_partial_certs_cex :
    ((SayHello c1cex [] []).1.err).isSome = true ∧
    (SayHello c1cex [] []).1.certs = [[1, 2]] := ⟨rfl, rfl⟩

/-- C1 (amended): whenever SayHello returns an error, the scalar results
cipherID, curveType, curveID and version are still their zero values; the
certs field, however, already holds the received chain when the failure
happens after the Certificate message was accepted. -/
theorem sayHello_error_scalars_zero (c : Conn) (tbl : List (Nat × CipherSuite))
    (a : List SignatureAndHash)
    (h : ((SayHello c tbl a).1.err).isSome) :
    (SayHello c tbl a).1.cipherID = 0 ∧ (SayHello c tbl a).1.curveType = 0 ∧
    (SayHello c tbl a).1.curveID = 0 ∧ (SayHello c tbl a).1.version = 0 := by
  revert h
  unfold SayHello
  split
  · simp
  · rcases hs : sayHello c (mkClientHello c a) {} with ⟨r, eff⟩
    rcases r with e | sh
    · simp [hs]
    · simp only [hs]
      unfold readHandshake
      rcases hr : c.reads[eff.readsDone]? with _ | rr
      · simp [List.getD, hr]
      · rcases rr with e | m
        · simp [List.getD, hr]
        · cases m with
          | certificate certificates =>
            by_cases hc : certificates.length = 0
            · simp [List.getD, hr, hc]
            · simp only [List.getD_eq_getElem?_getD, hr, Option.getD_some]
              rw [if_neg (by simp [hc])]
              exact afterCerts_zero _ _ _ _ _ _
          | serverHello v cs o => simp [List.getD, hr]
          | certificateStatus resp => simp [List.getD, hr]
          | serverKeyExchange raw key => simp [List.getD, hr]
          | other nm => simp [List.getD, hr]

/-- C1 (witness): the amended statement applied to the concrete failing
probe `c1cex`. -/
theorem sayHello_error_scalars_zero_witness :
    (SayHello c1cex [] []).1.cipherID = 0 ∧ (SayHello c1cex [] []).1.curveType = 0 ∧
    (SayHello c1cex [] []).1.curveID = 0 ∧ (SayHello c1cex [] []).1.version = 0 :=
  sayHello_error_scalars_zero c1cex [] [] (by decide)

/-- C7: with zero candidate versions SayHello fails before any I/O: the
configuration error of source lines 13-16 is returned (built by
`unexpectedMessageError` from the `[]uint16` slice and the explanatory
string), no record is written and no message is read. -/
theorem sayHello_no_versions_no_io (c : Conn) (tbl : List (Nat × CipherSuite))
    (a : List SignatureAndHash) (h : c.supportedVersions = []) :
    (SayHello c tbl a).1 = { err := some (unexpectedMessageError "[]uint16" "string") } ∧
    (SayHello c tbl a).2.written = [] ∧ (SayHello c tbl a).2.readsDone = 0 := by
  unfold SayHello
  simp [h]

/-- A concrete connection with no candidate versions, for the C7 witness. -/
def c7w : Conn :=
  { supportedVersions := [], serverName := "", curvePreferences := [],
    cipherSuites := [], writeErr := none, reads := [] }

/-- C7 (witness): the no-versions failure at a concrete connection. -/
theorem sayHello_no_versions_no_io_witness :
    (SayHello c7w [] []).1
      = { err := some (unexpectedMessageError "[]uint16" "string") } :=
  (sayHello_no_versions_no_io c7w [] [] rfl).1

/-- C3: with at least one candidate version, exactly one ClientHello is
transmitted; its legacy version field equals the most-preferred candidate
when that is at most the TLS 1.2 ceiling and equals the ceiling otherwise,
so it never exceeds the ceiling. -/
theorem clientHello_version_capped (c : Conn) (tbl : List (Nat × CipherSuite))
    (a : List SignatureAndHash) (h : c.supportedVersions ≠ []) :
    (SayHello c tbl a).2.written = [mkClientHello c a] ∧
    (mkClientHello c a).vers =
      (if c.supportedVersions.headD 0 ≤ VersionTLS12 then c.supportedVersions.headD 0
       else VersionTLS12) ∧
    (mkClientHello c a).vers ≤ VersionTLS12 := by
  refine ⟨SayHello_written c tbl a h, ?_, ?_⟩
  · simp only [mkClientHello, VersionTLS12]
    split <;> split <;> omega
  · simp only [mkClientHello, VersionTLS12]
    split <;> omega

/-- A concrete connection whose preferred candidate version exceeds the
ceiling, for the C3 witness. -/
def c3w : Conn :=
  { supportedVersions := [0x0304, 0x0303], serverName := "", curvePreferences := [],
    cipherSuites := [], writeErr := none, reads := [] }

/-- C3 (witness): a candidate list headed by a TLS 1.3 value (0x0304) is
transmitted with a legacy version capped at 0x0303. -/
theorem clientHello_version_capped_witness :
    (mkClientHello c3w []).vers ≤ VersionTLS12 :=
  (clientHello_version_capped c3w [] [] (by decide)).2.2

/-- Two concrete fresh connections to an unchanged peer, used for C9: the
scripted peer behaviour is identical, the transport objects differ. -/
def c9w : Conn :=
  { supportedVersions := [771], serverName := "example.com", curvePreferences := [23],
    cipherSuites := [5], writeErr := none,
    reads := [.ok (.serverHello 771 5 false), .ok (.certificate [[9]])] }

/-- Second connection for C9, distinct from `c9w` at the transport level. -/
def c9x : Conn :=
  { c9w with writeErr := some "write buffered" }

/-- C9 (counterexample): the randoms of the ClientHellos of two distinct
probe invocations are identical — `make([]byte, 32)` zero-fills and the
source never overwrites it — refuting that the nonces differ; the two probes
do return identical results. -/
theorem clientHello_random_not_fresh_cex :
    ((SayHello c9w [] []).2.written.map ClientHelloMsg.random)
      = ((SayHello c9x [] []).2.written.map ClientHelloMsg.random) ∧
    ((SayHello c9w [] []).2.written.map ClientHelloMsg.random)
      = [List.replicate 32 0] ∧
    (SayHello c9w [] []).1 = (SayHello c9x [] []).1 := ⟨rfl, by decide, rfl⟩

/-- C9 (amended): every transmitted ClientHello carries a 32-byte random,
but it is the all-zero vector on every invocation rather than a fresh nonce;
the probe is a deterministic function of the connection script, so probes
with identical peer behaviour produce identical results. -/
theorem clientHello_random_all_zero (c : Conn) (tbl : List (Nat × CipherSuite))
    (a : List SignatureAndHash) :
    ∀ hello ∈ (SayHello c tbl a).2.written,
      hello.random = List.replicate 32 0 ∧ hello.random.length = 32 := by
  intro hello hmem
  by_cases h : c.supportedVersions = []
  · unfold SayHello at hmem
    simp [h] at hmem
  · rw [SayHello_written c tbl a h] at hmem
    rw [List.mem_singleton] at hmem
    subst hmem
    constructor
    · simp [mkClientHello]
    · simp [mkClientHello]

/-- C9 (witness): the all-zero random of the hello transmitted on `c9w`. -/
theorem clientHello_random_all_zero_witness :
    (mkClientHello c9w []).random = List.replicate 32 0 ∧
    (mkClientHello c9w []).random.length = 32 :=
  clientHello_random_all_zero c9w [] [] (mkClientHello c9w [])
    (by rw [SayHello_written c9w [] [] (by decide)]; exact List.mem_singleton_self _)

/-- Counterexample input for C2: the ClientHello write fails, yet the peer
script is a complete successful exchange. -/
def c2cex : Conn :=
  { supportedVersions := [771], serverName := "", curvePreferences := [],
    cipherSuites := [], writeErr := some "write: broken pipe",
    reads := [.ok (.serverHello 771 5 false), .ok (.certificate [[7]])] }

/-- C2 (counterexample): writing the ClientHello record fails on `c2cex`, yet
SayHello proceeds to read messages and completes without error — source line
97 discards `writeRecord`'s result, so a write failure does not fail the
probe. -/
theorem write_failure_ignored_cex :
    c2cex.writeErr = some "write: broken pipe" ∧
    (SayHello c2cex [] []).1.err = none ∧
    (SayHello c2cex [] []).2.readsDone = 2 := ⟨rfl, rfl, rfl⟩

/-- C2 (amended): every `readHandshake` failure — at the ServerHello read,
the Certificate read, the CertificateStatus read or the ServerKeyExchange
read — is propagated as the probe's error, but a ClientHello write failure
is ignored: the result of SayHello does not depend on the write outcome. -/
theorem read_failures_propagate_write_ignored :
    (∀ c : Conn, ∀ tbl : List (Nat × CipherSuite), ∀ a : List SignatureAndHash,
     ∀ e : TLSError, ∀ rest : List (Except TLSError HSMsg),
       c.supportedVersions ≠ [] → c.reads = .error e :: rest →
       (SayHello c tbl a).1.err = some e) ∧
    (∀ c : Conn, ∀ tbl : List (Nat × CipherSuite), ∀ a : List SignatureAndHash,
     ∀ e : TLSError, ∀ v cs : Nat, ∀ o : Bool, ∀ rest : List (Except TLSError HSMsg),
       c.supportedVersions ≠ [] →
       c.reads = .ok (.serverHello v cs o) :: .error e :: rest →
       (SayHello c tbl a).1.err = some e) ∧
    (∀ c : Conn, ∀ tbl : List (Nat × CipherSuite), ∀ a : List SignatureAndHash,
     ∀ e : TLSError, ∀ v cs : Nat, ∀ certs : List (List Nat),
     ∀ rest : List (Except TLSError HSMsg),
       c.supportedVersions ≠ [] → certs ≠ [] →
       c.reads = .ok (.serverHello v cs true) :: .ok (.certificate certs)
         :: .error e :: rest →
       (SayHello c tbl a).1.err = some e) ∧
    (∀ c : Conn, ∀ tbl : List (Nat × CipherSuite), ∀ a : List SignatureAndHash,
     ∀ e : TLSError, ∀ v cs : Nat, ∀ certs : List (List Nat),
     ∀ rest : List (Except TLSError HSMsg),
       c.supportedVersions ≠ [] → certs ≠ [] →
       (mapIndex tbl cs).EllipticCurve = true →
       c.reads = .ok (.serverHello v cs false) :: .ok (.certificate certs)
         :: .error e :: rest →
       (SayHello c tbl a).1.err = some e) ∧
    (∀ c : Conn, ∀ tbl : List (Nat × CipherSuite), ∀ a : List SignatureAndHash,
     ∀ w : Option String,
       SayHello { c with writeErr := w } tbl a = SayHello c tbl a) := by
  refine ⟨?_, ?_, ?_, ?_, ?_⟩
  · intro c tbl a e rest hv hreads
    have hlen := length_beq_zero_false hv
    simp [SayHello, hlen, sayHello, readHandshake, hreads]
  · intro c tbl a e v cs o rest hv hreads
    have hlen := length_beq_zero_false hv
    simp [SayHello, hlen, sayHello, readHandshake, hreads]
  · intro c tbl a e v cs certs rest hv hcerts hreads
    have hlen := length_beq_zero_false hv
    obtain ⟨c0, crest, rfl⟩ := List.exists_cons_of_ne_nil hcerts
    simp [SayHello, hlen, sayHello, readHandshake, afterCerts, hreads]
  · intro c tbl a e v cs certs rest hv hcerts hec hreads
    have hlen := length_beq_zero_false hv
    obtain ⟨c0, crest, rfl⟩ := List.exists_cons_of_ne_nil hcerts
    simp [SayHello, hlen, sayHello, readHandshake, afterCerts, ecBranch,
      exchangeKeys, hreads, hec]
  · intro c tbl a w
    cases c
    rfl

/-- A connection whose first read fails, for the C2 witness. -/
def c2w : Conn :=
  { supportedVersions := [771], serverName := "", curvePreferences := [],
    cipherSuites := [], writeErr := none,
    reads := [.error (.transport "read: connection reset")] }

/-- C2 (witness): a transport failure at the ServerHello read is returned. -/
theorem read_failures_propagate_write_ignored_witness :
    (SayHello c2w [] []).1.err = some (.transport "read: connection reset") :=
  read_failures_propagate_write_ignored.1 c2w [] []
    (.transport "read: connection reset") [] (by decide) rfl

/-- Counterexample input for C4: an elliptic-curve probe whose
ServerKeyExchange carries fewer than 4 bytes of key-exchange data. -/
def c4cex : Conn :=
  { supportedVersions := [771], serverName := "", curvePreferences := [],
    cipherSuites := [], writeErr := none,
    reads := [.ok (.serverHello 771 49195 false), .ok (.certificate [[7]]),
              .ok (.serverKeyExchange [12] [1])] }

/-- Capability table marking suite 49195 elliptic-curve, for C4. -/
def tbl4 : List (Nat × CipherSuite) := [(49195, { EllipticCurve := true })]

/-- C4 (counterexample): when the ServerKeyExchange's key-exchange data is
undersized, the error's "got" identity is the previously read Certificate —
the source passes the stale `msg` variable — not the ServerKeyExchange
actually received, so the error does not carry the actual message identity. -/
theorem undersized_skx_stale_identity_cex :
    (SayHello c4cex tbl4 []).1.err
      = some (unexpectedMessageError "*tls.serverKeyExchangeMsg" "*tls.certificateMsg") ∧
    c4cex.reads.getD 2 (.error (.transport "EOF")) = .ok (.serverKeyExchange [12] [1]) ∧
    msgTypeName (.serverKeyExchange [12] [1]) = "*tls.serverKeyExchangeMsg" ∧
    "*tls.serverKeyExchangeMsg" ≠ "*tls.certificateMsg" :=
  ⟨rfl, rfl, rfl, by decide⟩

/-- C4 (amended): every handshake-grammar violation yields an
UnexpectedMessageError — a non-Certificate message or an empty certificate
list after ServerHello, a non-CertificateStatus message when stapling was
acknowledged, and, on the elliptic-curve branch, a non-ServerKeyExchange
message or undersized key-exchange data.  The wrong-type errors carry the
actual message identity; the undersized-data error instead carries the
identity of the previously read message. -/
theorem grammar_violation_unexpected_message :
    (∀ c : Conn, ∀ tbl : List (Nat × CipherSuite), ∀ a : List SignatureAndHash,
     ∀ v cs : Nat, ∀ o : Bool, ∀ m : HSMsg, ∀ rest : List (Except TLSError HSMsg),
       c.supportedVersions ≠ [] →
       (∀ certificates, m ≠ .certificate certificates) →
       c.reads = .ok (.serverHello v cs o) :: .ok m :: rest →
       (SayHello c tbl a).1.err
         = some (unexpectedMessageError "*tls.certificateMsg" (msgTypeName m))) ∧
    (∀ c : Conn, ∀ tbl : List (Nat × CipherSuite), ∀ a : List SignatureAndHash,
     ∀ v cs : Nat, ∀ o : Bool, ∀ rest : List (Except TLSError HSMsg),
       c.supportedVersions ≠ [] →
       c.reads = .ok (.serverHello v cs o) :: .ok (.certificate []) :: rest →
       (SayHello c tbl a).1.err
         = some (unexpectedMessageError "*tls.certificateMsg" "*tls.certificateMsg")) ∧
    (∀ c : Conn, ∀ tbl : List (Nat × CipherSuite), ∀ a : List SignatureAndHash,
     ∀ v cs : Nat, ∀ certs : List (List Nat), ∀ m : HSMsg,
     ∀ rest : List (Except TLSError HSMsg),
       c.supportedVersions ≠ [] → certs ≠ [] →
       (∀ response, m ≠ .certificateStatus response) →
       c.reads = .ok (.serverHello v cs true) :: .ok (.certificate certs)
         :: .ok m :: rest →
       (SayHello c tbl a).1.err
         = some (unexpectedMessageError "*tls.certificateStatusMsg" (msgTypeName m))) ∧
    (∀ c : Conn, ∀ tbl : List (Nat × CipherSuite), ∀ a : List SignatureAndHash,
     ∀ v cs : Nat, ∀ certs : List (List Nat), ∀ m : HSMsg,
     ∀ rest : List (Except TLSError HSMsg),
       c.supportedVersions ≠ [] → certs ≠ [] →
       (mapIndex tbl cs).EllipticCurve = true →
       (∀ raw key, m ≠ .serverKeyExchange raw key) →
       c.reads = .ok (.serverHello v cs false) :: .ok (.certificate certs)
         :: .ok m :: rest →
       (SayHello c tbl a).1.err
         = some (unexpectedMessageError "*tls.serverKeyExchangeMsg" (msgTypeName m))) ∧
    (∀ c : Conn, ∀ tbl : List (Nat × CipherSuite), ∀ a : List SignatureAndHash,
     ∀ v cs : Nat, ∀ certs : List (List Nat), ∀ rrest key : List Nat,
     ∀ rest : List (Except TLSError HSMsg),
       c.supportedVersions ≠ [] → certs ≠ [] →
       (mapIndex tbl cs).EllipticCurve = true → key.length < 4 →
       c.reads = .ok (.serverHello v cs false) :: .ok (.certificate certs)
         :: .ok (.serverKeyExchange (typeServerKeyExchange :: rrest) key) :: rest →
       (SayHello c tbl a).1.err
         = some (unexpectedMessageError "*tls.serverKeyExchangeMsg" "*tls.certificateMsg")) := by
  refine ⟨?_, ?_, ?_, ?_, ?_⟩
  · intro c tbl a v cs o m rest hv hne hreads
    have hlen := length_beq_zero_false hv
    cases m with
    | certificate certificates => exact absurd rfl (hne certificates)
    | serverHello v2 cs2 o2 =>
      simp [SayHello, hlen, sayHello, readHandshake, hreads, msgTypeName]
    | certificateStatus resp =>
      simp [SayHello, hlen, sayHello, readHandshake, hreads, msgTypeName]
    | serverKeyExchange raw key =>
      simp [SayHello, hlen, sayHello, readHandshake, hreads, msgTypeName]
    | other nm =>
      simp [SayHello, hlen, sayHello, readHandshake, hreads, msgTypeName]
  · intro c tbl a v cs o rest hv hreads
    have hlen := length_beq_zero_false hv
    simp [SayHello, hlen, sayHello, readHandshake, hreads, msgTypeName]
  · intro c tbl a v cs certs m rest hv hcerts hne hreads
    have hlen := length_beq_zero_false hv
    obtain ⟨c0, crest, rfl⟩ := List.exists_cons_of_ne_nil hcerts
    cases m with
    | certificateStatus resp => exact absurd rfl (hne resp)
    | serverHello v2 cs2 o2 =>
      simp [SayHello, hlen, sayHello, readHandshake, afterCerts, hreads, msgTypeName]
    | certificate cs2 =>
      simp [SayHello, hlen, sayHello, readHandshake, afterCerts, hreads, msgTypeName]
    | serverKeyExchange raw key =>
      simp [SayHello, hlen, sayHello, readHandshake, afterCerts, hreads, msgTypeName]
    | other nm =>
      simp [SayHello, hlen, sayHello, readHandshake, afterCerts, hreads, msgTypeName]
  · intro c tbl a v cs certs m rest hv hcerts hec hne hreads
    have hlen := length_beq_zero_false hv
    obtain ⟨c0, crest, rfl⟩ := List.exists_cons_of_ne_nil hcerts
    cases m with
    | serverKeyExchange raw key => exact absurd rfl (hne raw key)
    | serverHello v2 cs2 o2 =>
      simp [SayHello, hlen, sayHello, readHandshake, afterCerts, ecBranch,
        exchangeKeys, hreads, hec, msgTypeName]
    | certificate cs2 =>
      simp [SayHello, hlen, sayHello, readHandshake, afterCerts, ecBranch,
        exchangeKeys, hreads, hec, msgTypeName]
    | certificateStatus resp =>
      simp [SayHello, hlen, sayHello, readHandshake, afterCerts, ecBranch,
        exchangeKeys, hreads, hec, msgTypeName]
    | other nm =>
      simp [SayHello, hlen, sayHello, readHandshake, afterCerts, ecBranch,
        exchangeKeys, hreads, hec, msgTypeName]
  · intro c tbl a v cs certs rrest key rest hv hcerts hec hkey hreads
    have hlen := length_beq_zero_false hv
    obtain ⟨c0, crest, rfl⟩ := List.exists_cons_of_ne_nil hcerts
    simp [SayHello, hlen, sayHello, readHandshake, afterCerts, ecBranch,
      exchangeKeys, hreads, hec, hkey, msgTypeName]

/-- A probe that receives a Finished where a Certificate is due, for the C4
witness. -/
def c4w : Conn :=
  { supportedVersions := [771], serverName := "", curvePreferences := [],
    cipherSuites := [], writeErr := none,
    reads := [.ok (.serverHello 771 5 false), .ok (.other "*tls.finishedMsg")] }

/-- C4 (witness): a Finished in place of the Certificate yields an
UnexpectedMessageError naming the received message. -/
theorem grammar_violation_unexpected_message_witness :
    (SayHello c4w [] []).1.err
      = some (unexpectedMessageError "*tls.certificateMsg" "*tls.finishedMsg") :=
  grammar_violation_unexpected_message.1 c4w [] [] 771 5 false
    (.other "*tls.finishedMsg") [] (by decide)
    (fun certificates h => HSMsg.noConfusion h) rfl

/-- An elliptic-curve probe delivering a named-curve ServerKeyExchange, for
the C5 witness. -/
def c5w : Conn :=
  { supportedVersions := [771], serverName := "", curvePreferences := [],
    cipherSuites := [], writeErr := none,
    reads := [.ok (.serverHello 771 49195 false), .ok (.certificate [[7]]),
              .ok (.serverKeyExchange [12] [3, 0, 23, 0])] }

/-- Capability table marking suite 49195 elliptic-curve, for C5. -/
def tbl5 : List (Nat × CipherSuite) := [(49195, { EllipticCurve := true })]

/-- C5: on the elliptic-curve branch, for a ServerKeyExchange payload of at
least 4 bytes the reported curveType is the first payload byte, and curveID
is the big-endian 16-bit value of the next two bytes exactly when that first
byte equals 3 (the named-curve tag); any other tag leaves curveID zero. -/
theorem skx_curve_extraction (c : Conn) (tbl : List (Nat × CipherSuite))
    (a : List SignatureAndHash) (v cs : Nat) (certs : List (List Nat))
    (b0 b1 b2 b3 : Nat) (rrest krest : List Nat) (rest : List (Except TLSError HSMsg))
    (hv : c.supportedVersions ≠ []) (hcerts : certs ≠ [])
    (hec : (mapIndex tbl cs).EllipticCurve = true)
    (hb1 : b1 < 256) (hb2 : b2 < 256)
    (hreads : c.reads = .ok (.serverHello v cs false) :: .ok (.certificate certs)
        :: .ok (.serverKeyExchange (typeServerKeyExchange :: rrest)
             (b0 :: b1 :: b2 :: b3 :: krest)) :: rest) :
    (SayHello c tbl a).1.curveType = b0 ∧
    (SayHello c tbl a).1.curveID = (if b0 = 3 then 256 * b1 + b2 else 0) ∧
    (SayHello c tbl a).1.err = none := by
  have hlen := length_beq_zero_false hv
  obtain ⟨c0, crest, rfl⟩ := List.exists_cons_of_ne_nil hcerts
  have h4 : ∀ n : Nat, ¬ (n + 1 + 1 + 1 + 1 < 4) := fun n => by omega
  refine ⟨?_, ?_, ?_⟩
  · simp [SayHello, hlen, sayHello, readHandshake, afterCerts, ecBranch,
      exchangeKeys, hreads, hec, h4]
  · simp [SayHello, hlen, sayHello, readHandshake, afterCerts, ecBranch,
      exchangeKeys, hreads, hec, h4]
    by_cases hb0 : b0 = 3
    · simp [hb0, shiftLeft8_lor_eq b1 b2 hb2]
    · simp [hb0]
  · simp [SayHello, hlen, sayHello, readHandshake, afterCerts, ecBranch,
      exchangeKeys, hreads, hec, h4]

/-- C5 (witness): payload bytes [3, 0, 23, 0] give curveType 3 and the
named curve 23 (secp256r1). -/
theorem skx_curve_extraction_witness :
    (SayHello c5w tbl5 []).1.curveType = 3 ∧
    (SayHello c5w tbl5 []).1.curveID = 23 ∧
    (SayHello c5w tbl5 []).1.err = none := by
  have h := skx_curve_extraction c5w tbl5 [] 771 49195 [[7]] 3 0 23 0 [] [] []
    (by decide) (by decide) (by decide) (by decide) (by decide) rfl
  simpa using h

/-- C6: when the ServerHello acknowledged OCSP stapling and the next message
is not a CertificateStatus, the probe fails at that step with exactly three
messages read — the ServerKeyExchange read (which would be the fourth) is
never attempted, whatever the rest of the script holds. -/
theorem ocsp_violation_stops_before_skx (c : Conn) (tbl : List (Nat × CipherSuite))
    (a : List SignatureAndHash) (v cs : Nat) (certs : List (List Nat)) (m : HSMsg)
    (rest : List (Except TLSError HSMsg))
    (hv : c.supportedVersions ≠ []) (hcerts : certs ≠ [])
    (hm : ∀ response, m ≠ .certificateStatus response)
    (hreads : c.reads = .ok (.serverHello v cs true) :: .ok (.certificate certs)
        :: .ok m :: rest) :
    (SayHello c tbl a).1.err
      = some (unexpectedMessageError "*tls.certificateStatusMsg" (msgTypeName m)) ∧
    (SayHello c tbl a).2.readsDone = 3 := by
  have hlen := length_beq_zero_false hv
  obtain ⟨c0, crest, rfl⟩ := List.exists_cons_of_ne_nil hcerts
  cases m with
  | certificateStatus resp => exact absurd rfl (hm resp)
  | serverHello v2 cs2 o2 =>
    simp [SayHello, hlen, sayHello, readHandshake, afterCerts, hreads, msgTypeName]
  | certificate cs2 =>
    simp [SayHello, hlen, sayHello, readHandshake, afterCerts, hreads, msgTypeName]
  | serverKeyExchange raw key =>
    simp [SayHello, hlen, sayHello, readHandshake, afterCerts, hreads, msgTypeName]
  | other nm =>
    simp [SayHello, hlen, sayHello, readHandshake, afterCerts, hreads, msgTypeName]

/-- A probe where a Finished arrives in place of the promised
CertificateStatus, for the C6 witness. -/
def c6w : Conn :=
  { supportedVersions := [771], serverName := "", curvePreferences := [],
    cipherSuites := [], writeErr := none,
    reads := [.ok (.serverHello 771 5 true), .ok (.certificate [[7]]),
              .ok (.other "*tls.finishedMsg")] }

/-- C6 (witness): the concrete stapling violation stops after three reads. -/
theorem ocsp_violation_stops_before_skx_witness :
    (SayHello c6w [] []).1.err
      = some (unexpectedMessageError "*tls.certificateStatusMsg" "*tls.finishedMsg") ∧
    (SayHello c6w [] []).2.readsDone = 3 :=
  ocsp_violation_stops_before_skx c6w [] [] 771 5 [[7]] (.other "*tls.finishedMsg") []
    (by decide) (by decide) (fun response h => HSMsg.noConfusion h) rfl

/-- C8: for every successful probe whose negotiated cipher suite is not in
the elliptic-curve set per the capability table, curveType and curveID are
zero in the result, irrespective of any later message content, while
cipherID and version are copied from the ServerHello. -/
theorem non_ec_suite_no_curve (c : Conn) (tbl : List (Nat × CipherSuite))
    (a : List SignatureAndHash) (v cs : Nat) (ocsp : Bool) (certs : List (List Nat))
    (resp : List Nat) (rest : List (Except TLSError HSMsg))
    (hv : c.supportedVersions ≠ []) (hcerts : certs ≠ [])
    (hec : (mapIndex tbl cs).EllipticCurve = false)
    (hreads : c.reads = .ok (.serverHello v cs ocsp) :: .ok (.certificate certs)
        :: ((cond ocsp [Except.ok (HSMsg.certificateStatus resp)] []) ++ rest)) :
    (SayHello c tbl a).1 =
      { cipherID := cs, curveType := 0, curveID := 0, version := v,
        certs := certs, err := none } :=
  (SayHello_nonEC_success c tbl a v cs ocsp certs resp rest hv hcerts hec hreads).1

/-- A successful non-elliptic-curve probe with OCSP stapling, for the C8
witness. -/
def c8w : Conn :=
  { supportedVersions := [771], serverName := "", curvePreferences := [],
    cipherSuites := [], writeErr := none,
    reads := [.ok (.serverHello 771 5 true), .ok (.certificate [[7]]),
              .ok (.certificateStatus [])] }

/-- C8 (witness): suite 5 is not elliptic-curve in the empty table, so the
probe result carries zero curve fields and the ServerHello's suite and
version. -/
theorem non_ec_suite_no_curve_witness :
    (SayHello c8w [] []).1 =
      { cipherID := 5, curveType := 0, curveID := 0, version := 771,
        certs := [[7]], err := none } :=
  non_ec_suite_no_curve c8w [] [] 771 5 true [[7]] [] []
    (by decide) (by decide) (by decide) rfl

/-- C10: a negotiated suite absent from the capability table is treated as
non-elliptic-curve: the Go map lookup yields the zero-valued entry (whose
EllipticCurve flag is false), no ServerKeyExchange is read (exactly two
messages are consumed), no error is raised, and curveType and curveID stay
zero. -/
theorem unknown_suite_treated_non_ec (c : Conn) (tbl : List (Nat × CipherSuite))
    (a : List SignatureAndHash) (v cs : Nat) (certs : List (List Nat))
    (rest : List (Except TLSError HSMsg))
    (hv : c.supportedVersions ≠ []) (hcerts : certs ≠ [])
    (habsent : ∀ p ∈ tbl, p.1 ≠ cs)
    (hreads : c.reads = .ok (.serverHello v cs false) :: .ok (.certificate certs)
        :: rest) :
    mapIndex tbl cs = { EllipticCurve := false } ∧
    (SayHello c tbl a).1 =
      { cipherID := cs, curveType := 0, curveID := 0, version := v,
        certs := certs, err := none } ∧
    (SayHello c tbl a).2.readsDone = 2 := by
  have hfind : tbl.find? (fun e => e.1 == cs) = none :=
    List.find?_eq_none.mpr (fun p hp => by simpa using habsent p hp)
  have hmap : mapIndex tbl cs = { EllipticCurve := false } := by
    unfold mapIndex
    rw [hfind]
    rfl
  have hrun := SayHello_nonEC_success c tbl a v cs false certs [] rest hv hcerts
    (by rw [hmap]) hreads
  exact ⟨hmap, hrun.1, by simpa using hrun.2⟩

/-- A probe negotiating suite 999, absent from `tbl10`, for the C10
witness. -/
def c10w : Conn :=
  { supportedVersions := [771], serverName := "", curvePreferences := [],
    cipherSuites := [], writeErr := none,
    reads := [.ok (.serverHello 771 999 false), .ok (.certificate [[7]])] }

/-- Capability table without suite 999, for C10. -/
def tbl10 : List (Nat × CipherSuite) := [(49195, { EllipticCurve := true })]

/-- C10 (witness): the unknown suite 999 completes after two reads with zero
curve fields. -/
theorem unknown_suite_treated_non_ec_witness :
    mapIndex tbl10 999 = { EllipticCurve := false } ∧
    (SayHello c10w tbl10 []).1 =
      { cipherID := 999, curveType := 0, curveID := 0, version := 771,
        certs := [[7]], err := none } ∧
    (SayHello c10w tbl10 []).2.readsDone = 2 :=
  unknown_suite_treated_non_ec c10w tbl10 [] 771 999 [[7]] []
    (by decide) (by decide) (by decide) rfl

end CfsslScan
